import Mathlib

/-!
# Verification of the Cold_Caller / RealTime_Gemini_Agent repository

Shallow embedding of the repository's source files:

* `src/components/report-preview/ReportPreview.tsx` — the `Altair` component:
  tool declaration `declaration`, the session configuration passed to
  `setConfig`, and the `onToolCall` handler;
* `src/components/search-results/SearchResults.tsx` — the `SearchResults`
  pagination component;
* `server/index.js` — the `/api/sendEmail` Express endpoint;

together with spec-modelled definitions for the parts of the streaming
engine (the wire-protocol codec, the credential-carrying connection layer)
whose code is not part of the sources.
-/

namespace ColdCaller

/-! ## Tool calls — `onToolCall` in the Altair component

The handler receives a `ToolCall` batch `toolCall.functionCalls`,
finds a call named `render_altair` (if any) and stores its `json_graph`
argument, and — when the batch is non-empty — responds to every call in the
batch with `{response: {output: {success: true}}, id: fc.id}`. -/

/-- A function-call argument object, modelled as a string-keyed association
list of opaque string values (`fc.args` in the source). -/
abbrev Args := List (String × String)

/-- `FunctionCall {id, name, arguments}` as delivered in a `ToolCall` batch. -/
structure FunctionCall where
  id : String
  name : String
  args : Args
deriving DecidableEq, Repr

/-- The result payload a `FunctionResponse` can carry: the
`{output: {success: …}}` object built by `onToolCall`, or an error result
(`UnknownTool`, `ToolTimeout`, …) as named by the spec's error taxonomy. -/
inductive ToolResult where
  | output (success : Bool)
  | error (kind : String)
deriving DecidableEq, Repr

/-- `FunctionResponse {id, result | error}` as sent via `sendToolResponse`. -/
structure FunctionResponse where
  id : String
  result : ToolResult
deriving DecidableEq, Repr

/-- Name of the altair tool declaration (`declaration.name` in the source). -/
def renderAltairName : String := "render_altair"

/-- The `fc = toolCall.functionCalls.find(fc => fc.name === declaration.name)`
step of `onToolCall`: the first call in the batch whose name matches the
`render_altair` declaration, if any. -/
def matchRenderAltair (batch : List FunctionCall) : Option FunctionCall :=
  batch.find? (fun fc => fc.name == renderAltairName)

/-- The handler effect of `onToolCall`: the `json_graph` argument stored via
`setJSONString`, when a `render_altair` call is present in the batch
(`none` models "no handler invoked"). -/
def renderAltairArg (batch : List FunctionCall) : Option (Option String) :=
  (matchRenderAltair batch).map (fun fc => fc.args.lookup "json_graph")

/-- The responses sent by `onToolCall` for a batch: when the batch is
non-empty, one `{response: {output: {success: true}}, id: fc.id}` per call,
produced by `toolCall.functionCalls.map`; an empty batch sends nothing. -/
def onToolCallResponses (batch : List FunctionCall) : List FunctionResponse :=
  if batch.length = 0 then []
  else batch.map (fun fc => { id := fc.id, result := ToolResult.output true })

/-! ## The `/api/sendEmail` endpoint (`server/index.js`)

```js
const { to, subject, body, from } = req.body;
const mailOptions = {
  from: from || process.env.EMAIL_USER,
  to, subject, text: body,
  html: body.includes('<html') ? body : `<p>${body}</p>`,
};
```
followed by `res.status(200).json({message: 'Email sent successfully', info})`
on success and `res.status(500).json({error: 'Failed to send email',
details: error.message})` on failure. -/

/-- The request body of a `POST /api/sendEmail` call: `to`, `subject` and
`body` are strings; `from` is optional (`none` models an absent field). -/
structure EmailRequest where
  toAddr : String
  subject : String
  body : String
  fromField : Option String
deriving DecidableEq, Repr

/-- The mail object handed to `transporter.sendMail`. -/
structure MailOptions where
  fromAddr : String
  toAddr : String
  subject : String
  text : String
  html : String
deriving DecidableEq, Repr

/-- JavaScript `a || b` on an optional string: an absent or empty (falsy)
`a` yields `b`. -/
def jsOrDefault (a : Option String) (b : String) : String :=
  match a with
  | none => b
  | some s => if s = "" then b else s

/-- JavaScript `haystack.includes(needle)`: substring containment, modelled
as infix containment on the character lists. -/
def jsIncludes (haystack needle : String) : Bool :=
  decide (List.IsInfix needle.data haystack.data)

/-- The `mailOptions` object built by the endpoint from the request body and
the configured `process.env.EMAIL_USER`. -/
def buildMailOptions (req : EmailRequest) (emailUser : String) : MailOptions :=
  { fromAddr := jsOrDefault req.fromField emailUser
    toAddr := req.toAddr
    subject := req.subject
    text := req.body
    html := if jsIncludes req.body "<html" then req.body
            else "<p>" ++ req.body ++ "</p>" }

/-- Outcome of `transporter.sendMail`: resolves with an info string, or
rejects with an error message. -/
inductive SendMailOutcome where
  | resolved (info : String)
  | rejected (message : String)
deriving DecidableEq, Repr

/-- The JSON body of the endpoint's HTTP reply. -/
inductive ReplyBody where
  | sent (message : String) (info : String)
  | failed (error : String) (details : String)
deriving DecidableEq, Repr

/-- An HTTP reply: status code and JSON body. -/
structure HttpReply where
  status : Nat
  body : ReplyBody
deriving DecidableEq, Repr

/-- The `try { … sendMail … } catch` tail of the endpoint: 200 with
`'Email sent successfully'` when `sendMail` resolves, 500 with
`'Failed to send email'` and the error message when it rejects. -/
def sendEmailReply (outcome : SendMailOutcome) : HttpReply :=
  match outcome with
  | SendMailOutcome.resolved info =>
      { status := 200, body := ReplyBody.sent "Email sent successfully" info }
  | SendMailOutcome.rejected msg =>
      { status := 500, body := ReplyBody.failed "Failed to send email" msg }

/-! ## The `SearchResults` component (`SearchResults.tsx`)

State `page` starts at 0; `resultsPerPage = 5`;
`paginatedResults = results.slice(page*5, (page+1)*5)`;
`totalPages = Math.ceil(results.length / 5)`; the pagination controls are
rendered only when `totalPages > 1`, with
`Previous: setPage(p => Math.max(0, p - 1))` and
`Next: setPage(p => Math.min(totalPages - 1, p + 1))`. -/

/-- A search result entry as rendered by the component. -/
structure SearchResult where
  title : String
  snippet : String
  url : String
  thumbnail : Option String
deriving DecidableEq, Repr

/-- `resultsPerPage` in the source. -/
def resultsPerPage : Nat := 5

/-- JavaScript `array.slice(a, b)` for `0 ≤ a ≤ b`. -/
def jsSlice (l : List α) (a b : Nat) : List α :=
  (l.drop a).take (b - a)

/-- `results.slice(page * resultsPerPage, (page + 1) * resultsPerPage)`. -/
def paginatedResults (results : List SearchResult) (page : Nat) : List SearchResult :=
  jsSlice results (page * resultsPerPage) ((page + 1) * resultsPerPage)

/-- `Math.ceil(results.length / resultsPerPage)` as a ceiling division. -/
def totalPages (results : List SearchResult) : Nat :=
  (results.length + (resultsPerPage - 1)) / resultsPerPage

/-- The pagination block is rendered exactly when `totalPages > 1`. -/
def showPagination (results : List SearchResult) : Bool :=
  decide (1 < totalPages results)

/-- A click on one of the two pagination buttons. -/
inductive Click where
  | previous
  | next
deriving DecidableEq, Repr

/-- One button click. The buttons exist only while the pagination block is
rendered (`totalPages > 1`), so a click outside it leaves the page unchanged.
`Math.max(0, p - 1)` is truncated `Nat` subtraction; `totalPages - 1` in the
`Next` handler never underflows under the render guard. -/
def applyClick (results : List SearchResult) (page : Nat) : Click → Nat
  | Click.previous => if showPagination results then page - 1 else page
  | Click.next =>
      if showPagination results then min (totalPages results - 1) (page + 1)
      else page

/-- The page reached from the initial state `useState(0)` after a sequence of
button clicks. -/
def runClicks (results : List SearchResult) (clicks : List Click) : Nat :=
  clicks.foldl (applyClick results) 0

/-! ## Tool declarations and session configuration (Altair component) -/

/-- One entry of a parameter schema's `properties` object: property name,
its `SchemaType` and its description. -/
structure ParamProperty where
  name : String
  schemaType : String
  description : String
deriving DecidableEq, Repr

/-- The `parameters` object of a tool declaration:
`{type, properties: {...}, required: [...]}`. `SchemaType.OBJECT` of the
`@google/generative-ai` enum is the JSON-schema string `"object"`. -/
structure ParameterSchema where
  schemaType : String
  properties : List ParamProperty
  required : List String
deriving DecidableEq, Repr

/-- `FunctionDeclaration`: `{name, description, parameters}`. -/
structure FunctionDeclaration where
  name : String
  description : String
  parameters : ParameterSchema
deriving DecidableEq, Repr

/-- The `render_altair` declaration defined at the top of the Altair
component. -/
def declaration : FunctionDeclaration :=
  { name := "render_altair"
    description := "Displays an altair graph in json format."
    parameters :=
      { schemaType := "object"
        properties :=
          [{ name := "json_graph"
             schemaType := "string"
             description := "JSON STRING representation of the graph to render. Must be a string, not a json object" }]
        required := ["json_graph"] } }

/-- Modelled from the spec: `sendEmailDeclaration` is imported from
`src/lib/tool-declarations`, a file that is not part of the sources. Per the
tool-declaration schema of the external-interface contract and the system
instruction ("the send_email tool which allows me to send emails by
specifying the recipient, subject, body, and sender"), it declares the
`send_email` tool with an object parameter schema over those fields. -/
def sendEmailDeclaration : FunctionDeclaration :=
  { name := "send_email"
    description := "Sends an email by specifying the recipient, subject, body, and sender."
    parameters :=
      { schemaType := "object"
        properties :=
          [{ name := "to", schemaType := "string", description := "Recipient email address" },
           { name := "subject", schemaType := "string", description := "Email subject" },
           { name := "body", schemaType := "string", description := "Email body" },
           { name := "from", schemaType := "string", description := "Sender email address" }]
        required := ["to", "subject", "body"] } }

/-- An entry of the `tools` array of the session configuration: either the
built-in `{googleSearch: {}}` tool or a `{functionDeclarations: [...]}`
block. -/
inductive Tool where
  | googleSearch
  | functionDeclarations (decls : List FunctionDeclaration)
deriving DecidableEq, Repr

/-- The function declarations a `tools` entry supplies. -/
def toolDecls : Tool → List FunctionDeclaration
  | Tool.googleSearch => []
  | Tool.functionDeclarations ds => ds

/-- `generationConfig` of the session configuration. -/
structure GenerationConfig where
  temperature : ℚ
  topK : Nat
  topP : ℚ
  maxOutputTokens : Nat
deriving DecidableEq, Repr

/-- The session configuration handed to `setConfig` (and from there to
`connect()`): model identifier, generation parameters, system-instruction
parts and declared tools. -/
structure LiveConfig where
  model : String
  generationConfig : GenerationConfig
  systemInstructionParts : List String
  tools : List Tool
deriving DecidableEq, Repr

/-- The text part of the system instruction set by the Altair component
(template-literal indentation not reproduced; apostrophes written as
escapes). -/
def systemInstructionText : String :=
  "I am an advanced AI model created by Critical Future, a leading technology company specializing in cutting-edge AI solutions.\n" ++
  "I excel in data visualization and analytics, leveraging my expertise in Altair/Vega-Lite charts to create insightful visual representations of data.\n" ++
  "As a Critical Future AI, I prioritize:\n" ++
  "- Innovation in data presentation\n- Clear communication through visuals\n- Professional-grade visualizations\n- Data-driven insights\n- User-centric design principles\n" ++
  "When creating visualizations, I:\n" ++
  "- Use clear, descriptive titles and labels\n- Apply Critical Future\x27s professional color schemes\n- Include interactive elements for deeper data exploration\n- Provide meaningful axis labels and legends\n- Generate representative sample data when needed\n- Always utilize the render_altair function\n- Handle edge cases and null values professionally\n" ++
  "If any visualization encounters issues, I provide constructive solutions and alternatives, maintaining Critical Future\x27s commitment to excellence in AI services.\n" ++
  "Additionally, I have access to the send_email tool which allows me to send emails by specifying the recipient, subject, body, and sender."

/-- The configuration object the Altair component passes to `setConfig`. -/
def altairConfig : LiveConfig :=
  { model := "models/gemini-2.0-flash-exp"
    generationConfig :=
      { temperature := 7/10
        topK := 40
        topP := 95/100
        maxOutputTokens := 2048 }
    systemInstructionParts := [systemInstructionText]
    tools := [Tool.googleSearch,
              Tool.functionDeclarations [declaration, sendEmailDeclaration]] }

/-! ## Connection layer (spec-modelled) -/

/-- The observable outputs of one connection attempt: the transport URL (the
credential travels here as a connection parameter), the lines the engine
logs, and the data it persists to disk. -/
structure ConnectOutcome where
  transportUrl : String
  loggedLines : List String
  persistedData : List String
deriving DecidableEq, Repr

/-- Modelled from the spec: the streaming client (`MultimodalLiveClient` /
`use-live-api`) is not part of the sources. The transport is "a persistent,
message-framed, full-duplex connection to a fixed endpoint URL, carrying a
per-session credential as a connection parameter (never logged, never
persisted to disk)"; the engine reports session events (connected, setup
complete) to its log and persists nothing. -/
def connectSession (cfg : LiveConfig) (credential : String) : ConnectOutcome :=
  { transportUrl := "wss://generativelanguage.googleapis.com/ws?key=" ++ credential
    loggedLines := ["client.open", "setup sent for " ++ cfg.model, "setupcomplete"]
    persistedData := [] }

/-! ## Wire protocol codec (spec-modelled)

Modelled from the spec: the `ProtocolCodec` and the `multimodal-live-types`
module are not part of the sources. The data model gives `WireMessage` as a
tagged union with variants `Setup`, `SetupComplete`,
`ClientContent{parts, turnComplete}`, `RealtimeInput{chunks}`,
`ServerContent{parts, turnComplete, interrupted}`, `ToolCall{calls}` and
`ToolResponse{responses}`; the codec contract is
`encode(WireMessage) -> bytes`, `decode(bytes) -> WireMessage | DecodeError`,
with malformed payloads yielding `DecodeError::Malformed`. The byte stream
is modelled as `List Nat` with tag-plus-length-prefixed fields. -/

/-- An audio or video chunk carried in `RealtimeInput`: encoded payload
bytes plus a mime/encoding tag; audio additionally carries a sample rate. -/
inductive Chunk where
  | audio (data : List Nat) (mime : String) (sampleRate : Nat)
  | video (data : List Nat) (mime : String)
deriving DecidableEq, Repr

/-- The `WireMessage` tagged union of the wire protocol. Content parts are
opaque payload strings. -/
inductive WireMessage where
  | setup
  | setupComplete
  | clientContent (parts : List String) (turnComplete : Bool)
  | realtimeInput (chunks : List Chunk)
  | serverContent (parts : List String) (turnComplete : Bool) (interrupted : Bool)
  | toolCall (calls : List FunctionCall)
  | toolResponse (responses : List FunctionResponse)
deriving DecidableEq, Repr

/-- Decoding failure: unknown or malformed payloads yield `malformed`. -/
inductive DecodeError where
  | malformed
deriving DecidableEq, Repr

/-- Encode a bare number as one stream element. -/
def encodeNat (n : Nat) : List Nat := [n]

/-- Read one number off the stream. -/
def decodeNat : List Nat → Option (Nat × List Nat)
  | [] => none
  | n :: rest => some (n, rest)

/-- Encode a boolean flag. -/
def encodeBool (b : Bool) : List Nat := [if b then 1 else 0]

/-- Read a boolean flag; any element other than 0 or 1 is malformed. -/
def decodeBool : List Nat → Option (Bool × List Nat)
  | 0 :: rest => some (false, rest)
  | 1 :: rest => some (true, rest)
  | _ => none

/-- Encode an opaque byte payload, length-prefixed. -/
def encodeBytes (bs : List Nat) : List Nat := bs.length :: bs

/-- Read a length-prefixed byte payload. -/
def decodeBytes : List Nat → Option (List Nat × List Nat)
  | [] => none
  | n :: rest =>
      if n ≤ rest.length then some (rest.take n, rest.drop n) else none

/-- Encode a string as its length followed by its character codepoints. -/
def encodeString (s : String) : List Nat :=
  s.data.length :: s.data.map Char.toNat

/-- Read a length-prefixed codepoint sequence back into a string. -/
def decodeString : List Nat → Option (String × List Nat)
  | [] => none
  | n :: rest =>
      if n ≤ rest.length then
        some (String.mk ((rest.take n).map Char.ofNat), rest.drop n)
      else none

/-- Encode a list, length-prefixed, with `f` on each element. -/
def encodeListWith (f : α → List Nat) (xs : List α) : List Nat :=
  xs.length :: (xs.map f).flatten

/-- Read `count` consecutive elements with the element decoder `g`. -/
def decodeCount (g : List Nat → Option (α × List Nat)) :
    Nat → List Nat → Option (List α × List Nat)
  | 0, rest => some ([], rest)
  | Nat.succ k, rest =>
      match g rest with
      | none => none
      | some (a, rest1) =>
          match decodeCount g k rest1 with
          | none => none
          | some (as, rest2) => some (a :: as, rest2)

/-- Read a length-prefixed list with the element decoder `g`. -/
def decodeListWith (g : List Nat → Option (α × List Nat)) :
    List Nat → Option (List α × List Nat)
  | [] => none
  | n :: rest => decodeCount g n rest

/-- Encode one chunk: a variant tag, the payload bytes, the mime tag, and
for audio the sample rate. -/
def encodeChunk : Chunk → List Nat
  | Chunk.audio data mime rate =>
      0 :: (encodeBytes data ++ encodeString mime ++ encodeNat rate)
  | Chunk.video data mime => 1 :: (encodeBytes data ++ encodeString mime)

/-- Decode one chunk. -/
def decodeChunk : List Nat → Option (Chunk × List Nat)
  | 0 :: rest =>
      match decodeBytes rest with
      | none => none
      | some (data, r1) =>
          match decodeString r1 with
          | none => none
          | some (mime, r2) =>
              match decodeNat r2 with
              | none => none
              | some (rate, r3) => some (Chunk.audio data mime rate, r3)
  | 1 :: rest =>
      match decodeBytes rest with
      | none => none
      | some (data, r1) =>
          match decodeString r1 with
          | none => none
          | some (mime, r2) => some (Chunk.video data mime, r2)
  | _ => none

/-- Encode one argument entry (key, value). -/
def encodeArgEntry (p : String × String) : List Nat :=
  encodeString p.1 ++ encodeString p.2

/-- Decode one argument entry. -/
def decodeArgEntry (input : List Nat) : Option ((String × String) × List Nat) :=
  match decodeString input with
  | none => none
  | some (k, r1) =>
      match decodeString r1 with
      | none => none
      | some (v, r2) => some ((k, v), r2)

/-- Encode a `FunctionCall{id, name, arguments}`. -/
def encodeFunctionCall (fc : FunctionCall) : List Nat :=
  encodeString fc.id ++ encodeString fc.name ++ encodeListWith encodeArgEntry fc.args

/-- Decode a `FunctionCall`. -/
def decodeFunctionCall (input : List Nat) : Option (FunctionCall × List Nat) :=
  match decodeString input with
  | none => none
  | some (i, r1) =>
      match decodeString r1 with
      | none => none
      | some (n, r2) =>
          match decodeListWith decodeArgEntry r2 with
          | none => none
          | some (as, r3) => some ({ id := i, name := n, args := as }, r3)

/-- Encode a `ToolResult` (result or error). -/
def encodeToolResult : ToolResult → List Nat
  | ToolResult.output b => 0 :: encodeBool b
  | ToolResult.error k => 1 :: encodeString k

/-- Decode a `ToolResult`. -/
def decodeToolResult : List Nat → Option (ToolResult × List Nat)
  | 0 :: rest =>
      match decodeBool rest with
      | none => none
      | some (b, r1) => some (ToolResult.output b, r1)
  | 1 :: rest =>
      match decodeString rest with
      | none => none
      | some (k, r1) => some (ToolResult.error k, r1)
  | _ => none

/-- Encode a `FunctionResponse{id, result | error}`. -/
def encodeFunctionResponse (fr : FunctionResponse) : List Nat :=
  encodeString fr.id ++ encodeToolResult fr.result

/-- Decode a `FunctionResponse`. -/
def decodeFunctionResponse (input : List Nat) : Option (FunctionResponse × List Nat) :=
  match decodeString input with
  | none => none
  | some (i, r1) =>
      match decodeToolResult r1 with
      | none => none
      | some (t, r2) => some ({ id := i, result := t }, r2)

/-- `encode(WireMessage) -> bytes`: one top-level variant tag followed by
the variant's fields. -/
def encode : WireMessage → List Nat
  | WireMessage.setup => [0]
  | WireMessage.setupComplete => [1]
  | WireMessage.clientContent parts tc =>
      2 :: (encodeListWith encodeString parts ++ encodeBool tc)
  | WireMessage.realtimeInput chunks =>
      3 :: encodeListWith encodeChunk chunks
  | WireMessage.serverContent parts tc intr =>
      4 :: (encodeListWith encodeString parts ++ encodeBool tc ++ encodeBool intr)
  | WireMessage.toolCall calls =>
      5 :: encodeListWith encodeFunctionCall calls
  | WireMessage.toolResponse responses =>
      6 :: encodeListWith encodeFunctionResponse responses

/-- Decode the variant after its tag, returning the unread tail. -/
def decodeBody : List Nat → Option (WireMessage × List Nat)
  | 0 :: rest => some (WireMessage.setup, rest)
  | 1 :: rest => some (WireMessage.setupComplete, rest)
  | 2 :: rest =>
      match decodeListWith decodeString rest with
      | none => none
      | some (parts, r1) =>
          match decodeBool r1 with
          | none => none
          | some (tc, r2) => some (WireMessage.clientContent parts tc, r2)
  | 3 :: rest =>
      match decodeListWith decodeChunk rest with
      | none => none
      | some (chunks, r1) => some (WireMessage.realtimeInput chunks, r1)
  | 4 :: rest =>
      match decodeListWith decodeString rest with
      | none => none
      | some (parts, r1) =>
          match decodeBool r1 with
          | none => none
          | some (tc, r2) =>
              match decodeBool r2 with
              | none => none
              | some (intr, r3) =>
                  some (WireMessage.serverContent parts tc intr, r3)
  | 5 :: rest =>
      match decodeListWith decodeFunctionCall rest with
      | none => none
      | some (calls, r1) => some (WireMessage.toolCall calls, r1)
  | 6 :: rest =>
      match decodeListWith decodeFunctionResponse rest with
      | none => none
      | some (responses, r1) => some (WireMessage.toolResponse responses, r1)
  | _ => none

/-- `decode(bytes) -> WireMessage | DecodeError`: exactly one known variant
tag, the whole payload consumed; anything else is `Malformed`. -/
def decode (input : List Nat) : Except DecodeError WireMessage :=
  match decodeBody input with
  | some (m, []) => Except.ok m
  | _ => Except.error DecodeError.malformed

/-! ## Codec round-trip lemmas -/

theorem decodeNat_encode (n : Nat) (t : List Nat) :
    decodeNat (encodeNat n ++ t) = some (n, t) := rfl

theorem decodeBool_encode (b : Bool) (t : List Nat) :
    decodeBool (encodeBool b ++ t) = some (b, t) := by
  cases b <;> rfl

theorem decodeBytes_encode (bs t : List Nat) :
    decodeBytes (encodeBytes bs ++ t) = some (bs, t) := by
  simp [encodeBytes, decodeBytes]

theorem decodeString_encode (s : String) (t : List Nat) :
    decodeString (encodeString s ++ t) = some (s, t) := by
  obtain ⟨d⟩ := s
  have h : d.length = (d.map Char.toNat).length := by simp
  simp only [encodeString, List.cons_append, decodeString]
  rw [h]
  simp [Function.comp_def, Char.ofNat_toNat]

theorem decodeCount_encode (g : List Nat → Option (α × List Nat))
    (f : α → List Nat) (hfg : ∀ a t, g (f a ++ t) = some (a, t))
    (xs : List α) (t : List Nat) :
    decodeCount g xs.length ((xs.map f).flatten ++ t) = some (xs, t) := by
  induction xs generalizing t with
  | nil => simp [decodeCount]
  | cons x xs ih =>
      simp only [List.map_cons, List.flatten_cons, List.length_cons,
        List.append_assoc]
      simp only [decodeCount, hfg x ((xs.map f).flatten ++ t), ih t]

theorem decodeListWith_encode (g : List Nat → Option (α × List Nat))
    (f : α → List Nat) (hfg : ∀ a t, g (f a ++ t) = some (a, t))
    (xs : List α) (t : List Nat) :
    decodeListWith g (encodeListWith f xs ++ t) = some (xs, t) := by
  simp only [encodeListWith, List.cons_append, decodeListWith]
  exact decodeCount_encode g f hfg xs t

theorem decodeChunk_encode (c : Chunk) (t : List Nat) :
    decodeChunk (encodeChunk c ++ t) = some (c, t) := by
  cases c <;>
    simp [encodeChunk, decodeChunk, List.append_assoc, decodeBytes_encode,
      decodeString_encode, decodeNat_encode]

theorem decodeArgEntry_encode (p : String × String) (t : List Nat) :
    decodeArgEntry (encodeArgEntry p ++ t) = some (p, t) := by
  simp [encodeArgEntry, decodeArgEntry, List.append_assoc, decodeString_encode]

theorem decodeFunctionCall_encode (fc : FunctionCall) (t : List Nat) :
    decodeFunctionCall (encodeFunctionCall fc ++ t) = some (fc, t) := by
  simp [encodeFunctionCall, decodeFunctionCall, List.append_assoc,
    decodeString_encode,
    decodeListWith_encode decodeArgEntry encodeArgEntry decodeArgEntry_encode]

theorem decodeToolResult_encode (r : ToolResult) (t : List Nat) :
    decodeToolResult (encodeToolResult r ++ t) = some (r, t) := by
  cases r <;>
    simp [encodeToolResult, decodeToolResult, List.append_assoc,
      decodeBool_encode, decodeString_encode]

theorem decodeFunctionResponse_encode (fr : FunctionResponse) (t : List Nat) :
    decodeFunctionResponse (encodeFunctionResponse fr ++ t) = some (fr, t) := by
  simp [encodeFunctionResponse, decodeFunctionResponse, List.append_assoc,
    decodeString_encode, decodeToolResult_encode]

theorem decodeBody_encode (m : WireMessage) (t : List Nat) :
    decodeBody (encode m ++ t) = some (m, t) := by
  cases m <;>
    simp [encode, decodeBody, List.append_assoc, decodeBool_encode,
      decodeListWith_encode decodeString encodeString decodeString_encode,
      decodeListWith_encode decodeChunk encodeChunk decodeChunk_encode,
      decodeListWith_encode decodeFunctionCall encodeFunctionCall
        decodeFunctionCall_encode,
      decodeListWith_encode decodeFunctionResponse encodeFunctionResponse
        decodeFunctionResponse_encode]

/-- C4: for every `WireMessage` variant `m`, decoding the encoding of `m`
yields `m` again: `decode (encode m) = ok m`. -/
theorem wireMessage_decode_encode (m : WireMessage) :
    decode (encode m) = Except.ok m := by
  have h := decodeBody_encode m []
  rw [List.append_nil] at h
  simp [decode, h]

/-! ## Tool-call correlation (C1–C3) -/

/-- C1: for every `ToolCall` batch with distinct call ids, `onToolCall`
sends exactly one `FunctionResponse` per `FunctionCall` of the batch, each
carrying the id of its originating call — never zero and never more than
one response per call id. -/
theorem toolCall_exactly_one_response (batch : List FunctionCall)
    (hids : (batch.map FunctionCall.id).Nodup) :
    ((onToolCallResponses batch).map FunctionResponse.id
      = batch.map FunctionCall.id) ∧
    ∀ fc ∈ batch,
      (onToolCallResponses batch).countP (fun r => r.id == fc.id) = 1 := by
  constructor
  · by_cases h : batch.length = 0
    · rw [onToolCallResponses, if_pos h, List.length_eq_zero.mp h]
      rfl
    · rw [onToolCallResponses, if_neg h, List.map_map]
      rfl
  · intro fc hfc
    have h : batch.length ≠ 0 := by
      intro h0
      rw [List.length_eq_zero.mp h0] at hfc
      exact (List.not_mem_nil fc) hfc
    rw [onToolCallResponses, if_neg h, List.countP_map]
    have h2 : batch.countP ((fun r : FunctionResponse => r.id == fc.id) ∘
        fun fc' : FunctionCall =>
          ({ id := fc'.id, result := ToolResult.output true } : FunctionResponse))
        = (batch.map FunctionCall.id).countP (fun i => i == fc.id) := by
      rw [List.countP_map]
      rfl
    rw [h2, ← List.count_eq_countP]
    exact List.count_eq_one_of_mem hids (List.mem_map_of_mem FunctionCall.id hfc)

/-- Witness for C1 at a concrete two-call batch. -/
theorem toolCall_exactly_one_response_witness :
    ((onToolCallResponses
        [{ id := "1", name := "render_altair", args := [] },
         { id := "2", name := "other", args := [] }]).map FunctionResponse.id
      = [({ id := "1", name := "render_altair", args := [] } : FunctionCall),
         { id := "2", name := "other", args := [] }].map FunctionCall.id) ∧
    (onToolCallResponses
        [{ id := "1", name := "render_altair", args := [] },
         { id := "2", name := "other", args := [] }]).countP
        (fun r => r.id == "1") = 1 := by
  have h := toolCall_exactly_one_response
      [{ id := "1", name := "render_altair", args := [] },
       { id := "2", name := "other", args := [] }] (by decide)
  exact ⟨h.1, h.2 { id := "1", name := "render_altair", args := [] } (by decide)⟩

/-- C2 counterexample: dispatching the batch
`[FunctionCall{id:"42", name:"unregistered"}]` makes `onToolCall` send the
generic success response `{id:"42", response:{output:{success:true}}}` —
not a `FunctionResponse` carrying an `UnknownTool` error. -/
theorem unknownTool_counterexample :
    onToolCallResponses [{ id := "42", name := "unregistered", args := [] }]
      = [{ id := "42", result := ToolResult.output true }] ∧
    ToolResult.output true ≠ ToolResult.error "UnknownTool" := by
  exact ⟨rfl, by decide⟩

/-- C2 (amended): if a `FunctionCall` arrives whose name has no registered
handler, a `FunctionResponse` carrying the generic success result
`{output: {success: true}}` — not an `UnknownTool` error — is sent for that
call's id, without the `render_altair` handler being invoked. -/
theorem unknownTool_success_response (fc : FunctionCall)
    (h : fc.name ≠ renderAltairName) :
    onToolCallResponses [fc]
      = [{ id := fc.id, result := ToolResult.output true }] ∧
    renderAltairArg [fc] = none := by
  refine ⟨rfl, ?_⟩
  simp [renderAltairArg, matchRenderAltair, h]

/-- Witness for C2's amended theorem at the call
`{id:"42", name:"unregistered"}`. -/
theorem unknownTool_success_response_witness :
    onToolCallResponses [{ id := "42", name := "unregistered", args := [] }]
      = [{ id := "42", result := ToolResult.output true }] ∧
    renderAltairArg [{ id := "42", name := "unregistered", args := [] }] = none :=
  unknownTool_success_response
    { id := "42", name := "unregistered", args := [] } (by decide)

/-- C3: every `FunctionResponse` sent by `onToolCall` carries the id of one
of the `FunctionCall`s of the batch being answered; an id that was never
observed as an incoming call is never answered. -/
theorem response_ids_from_batch (batch : List FunctionCall)
    (r : FunctionResponse) (hr : r ∈ onToolCallResponses batch) :
    r.id ∈ batch.map FunctionCall.id := by
  by_cases h : batch.length = 0
  · rw [onToolCallResponses, if_pos h] at hr
    exact absurd hr (List.not_mem_nil r)
  · rw [onToolCallResponses, if_neg h] at hr
    obtain ⟨fc, hfc, rfl⟩ := List.mem_map.mp hr
    exact List.mem_map_of_mem FunctionCall.id hfc

/-- Witness for C3 at a concrete batch and response. -/
theorem response_ids_from_batch_witness :
    ("7" : String) ∈
      ([{ id := "7", name := "x", args := [] }] : List FunctionCall).map
        FunctionCall.id :=
  response_ids_from_batch [{ id := "7", name := "x", args := [] }]
    { id := "7", result := ToolResult.output true } (by decide)

/-! ## Tool declarations and configuration (C5, C6) -/

/-- C5: every function declaration supplied in the session configuration's
`tools` has the declared shape — a parameter schema with `type` `"object"`,
a non-empty `properties` map and a `required` list — and the tool-call
handler is matched to a declaration by name. -/
theorem tool_declarations_shape :
    (∀ t ∈ altairConfig.tools, ∀ d ∈ toolDecls t,
        d.parameters.schemaType = "object" ∧
        d.parameters.properties ≠ [] ∧ d.parameters.required ≠ []) ∧
    (∀ batch fc, matchRenderAltair batch = some fc →
        fc.name = declaration.name) := by
  constructor
  · decide
  · intro batch fc h
    have h2 := List.find?_some h
    simpa [renderAltairName, declaration] using h2

/-- Witness for C5 at the `render_altair` declaration and a matching call. -/
theorem tool_declarations_shape_witness :
    (declaration.parameters.schemaType = "object" ∧
     declaration.parameters.properties ≠ [] ∧
     declaration.parameters.required ≠ []) ∧
    ({ id := "9", name := "render_altair", args := [] } : FunctionCall).name
      = declaration.name := by
  have h := tool_declarations_shape
  refine ⟨h.1 (Tool.functionDeclarations [declaration, sendEmailDeclaration])
      (by decide) declaration (by decide), ?_⟩
  exact h.2 [{ id := "9", name := "render_altair", args := [] }]
      { id := "9", name := "render_altair", args := [] } (by decide)

/-- C6: the session configuration supplied by the caller contains the model
identifier, the generation parameters (temperature, top-k, top-p, max
output tokens), a system instruction text, and the declared tool list. -/
theorem session_config_complete :
    altairConfig.model = "models/gemini-2.0-flash-exp" ∧
    altairConfig.generationConfig.temperature = 7/10 ∧
    altairConfig.generationConfig.topK = 40 ∧
    altairConfig.generationConfig.topP = 95/100 ∧
    altairConfig.generationConfig.maxOutputTokens = 2048 ∧
    altairConfig.systemInstructionParts ≠ [] ∧
    altairConfig.tools ≠ [] := by
  refine ⟨rfl, rfl, rfl, rfl, rfl, ?_, ?_⟩ <;> simp [altairConfig]

/-! ## Credential noninterference (C7) -/

/-- C7: the per-session credential is never logged and never persisted —
two connection runs differing only in the credential value produce
identical logged lines and identical (empty) persisted data. -/
theorem credential_noninterference (cfg : LiveConfig) (k₁ k₂ : String) :
    (connectSession cfg k₁).loggedLines = (connectSession cfg k₂).loggedLines ∧
    (connectSession cfg k₁).persistedData = [] ∧
    (connectSession cfg k₂).persistedData = [] :=
  ⟨rfl, rfl, rfl⟩

/-! ## The sendEmail endpoint (C8, C9) -/

/-- C8 counterexample: for the request
`{to:"a", subject:"s", body:"b", from:""}` the `from` field is provided,
yet `from || process.env.EMAIL_USER` evaluates to the configured user
because the empty string is falsy — the mail's sender is not the request's
`from`. -/
theorem sendEmail_from_counterexample :
    (buildMailOptions
        { toAddr := "a", subject := "s", body := "b", fromField := some "" }
        "user@example.com").fromAddr = "user@example.com" ∧
    ("user@example.com" : String) ≠ "" := by
  exact ⟨rfl, by decide⟩

/-- C8 (amended): the mail handed to the transporter has recipient `to`,
subject `subject`, plain-text field `body` and the html field prescribed by
the `'<html'` test; its sender is the request's `from` when that field is
provided and non-empty (JavaScript truthiness), and the configured
`EMAIL_USER` otherwise. -/
theorem sendEmail_mail_options (req : EmailRequest) (emailUser : String) :
    (buildMailOptions req emailUser).toAddr = req.toAddr ∧
    (buildMailOptions req emailUser).subject = req.subject ∧
    (buildMailOptions req emailUser).text = req.body ∧
    (buildMailOptions req emailUser).fromAddr
      = (match req.fromField with
         | none => emailUser
         | some s => if s = "" then emailUser else s) ∧
    (buildMailOptions req emailUser).html
      = (if jsIncludes req.body "<html" then req.body
         else "<p>" ++ req.body ++ "</p>") :=
  ⟨rfl, rfl, rfl, rfl, rfl⟩

/-- C9: the endpoint replies with status 200 and
`'Email sent successfully'` exactly when `sendMail` resolves, and with
status 500 and `{error: 'Failed to send email', details}` exactly when it
rejects; no other status is returned. -/
theorem sendEmail_reply_statuses (o : SendMailOutcome) :
    ((sendEmailReply o).status = 200 ∨ (sendEmailReply o).status = 500) ∧
    ((sendEmailReply o).status = 200 ↔
      ∃ info, o = SendMailOutcome.resolved info ∧
        (sendEmailReply o).body
          = ReplyBody.sent "Email sent successfully" info) ∧
    ((sendEmailReply o).status = 500 ↔
      ∃ msg, o = SendMailOutcome.rejected msg ∧
        (sendEmailReply o).body
          = ReplyBody.failed "Failed to send email" msg) := by
  cases o <;> simp [sendEmailReply]

/-! ## SearchResults pagination (C10) -/

/-- The page index stays at or below `totalPages - 1` (truncated at 0)
under any click, hence under any click sequence. -/
theorem foldl_applyClick_le (results : List SearchResult)
    (clicks : List Click) (p : Nat) (hp : p ≤ totalPages results - 1) :
    clicks.foldl (applyClick results) p ≤ totalPages results - 1 := by
  induction clicks generalizing p with
  | nil => exact hp
  | cons c cs ih =>
      apply ih
      cases c <;> simp only [applyClick] <;> split <;> omega

/-- `results.slice(page*5, (page+1)*5)` is the 5-element window starting at
`5*page`. -/
theorem paginatedResults_eq (results : List SearchResult) (p : Nat) :
    paginatedResults results p = (results.drop (5 * p)).take 5 := by
  have h1 : (p + 1) * resultsPerPage - p * resultsPerPage = 5 := by
    simp only [resultsPerPage]; omega
  have h2 : p * resultsPerPage = 5 * p := by
    simp only [resultsPerPage]; omega
  rw [paginatedResults, jsSlice, h1, h2]

/-- C10 counterexample: with an empty results list the component starts
(and stays) at page 0, but `ceil(0/5) - 1 = -1`, so the page index does not
lie within `[0, ceil(results.length/5) - 1]` as the claim states. -/
theorem searchResults_page_range_counterexample :
    runClicks ([] : List SearchResult) [] = 0 ∧
    ¬ ((runClicks ([] : List SearchResult) [] : Int)
        ≤ (totalPages ([] : List SearchResult) : Int) - 1) := by
  exact ⟨rfl, by decide⟩

/-- C10 (amended): from page 0, after any sequence of Previous/Next clicks
the page index stays within `[0, max(ceil(results.length/5) - 1, 0)]` (the
claimed upper bound `ceil - 1` fails only for the empty list, where the
page is pinned at 0); the rendered items are exactly the slice
`results[5*page .. 5*page+5)`; and the pagination controls are rendered
exactly when `results.length > 5`. -/
theorem searchResults_invariants (results : List SearchResult)
    (clicks : List Click) :
    runClicks results clicks ≤ totalPages results - 1 ∧
    paginatedResults results (runClicks results clicks)
      = (results.drop (5 * runClicks results clicks)).take 5 ∧
    (showPagination results = true ↔ 5 < results.length) := by
  refine ⟨foldl_applyClick_le results clicks 0 (Nat.zero_le _),
    paginatedResults_eq results (runClicks results clicks), ?_⟩
  simp only [showPagination, decide_eq_true_eq, totalPages, resultsPerPage]
  omega

end ColdCaller
